import Mathlib

/-!
Shallow embedding of the Tianyancha shareholder-table scraper (main.py)
and proofs about it.

The embedding covers the pieces the specification's claims are about:
the polling loop and row filter of scrape_table, the workbook merge of
append_to_excel, the per-company orchestrator scrape_company_tables with
its try/except/finally structure, and the batch loop of run.  External
collaborators (Playwright pages, BeautifulSoup, pandas I/O) are modelled
by the data they hand the code: the successive inner_html snapshots are a
function from poll index to markup, parsing is a function from markup to
an optional header/body structure, and the workbook on disk is an
association list from sheet name to stored table.
-/

set_option autoImplicit false

/-- A cell of a stored table: some text, or none for a missing value
(pandas NaN introduced by column alignment). -/
abbrev Cell := Option String

/-- A pandas DataFrame as the scraper uses it: an ordered header list and
a list of rows. -/
structure DF where
  headers : List String
  rows : List (List Cell)
deriving DecidableEq, Repr

/-- A workbook on disk: an ordered association list from sheet name to the
sheet's stored table, in workbook sheet order. -/
abbrev Workbook := List (String × DF)

/-- Index of the first occurrence of a header name in a header list,
modelling pandas column lookup during concat alignment. -/
def headerIdx (hs : List String) (h : String) : Option Nat :=
  hs.findIdx? (fun s => s = h)

/-- Align one row from a source header list to a target header list:
each target column takes the cell under the same-named source column, or
none (NaN) when the source has no such column. -/
def alignRow (src tgt : List String) (row : List Cell) : List Cell :=
  tgt.map (fun h =>
    match headerIdx src h with
    | some i => row.getD i none
    | none => none)

/-- pd.concat([a, b], ignore_index=True): rows of a followed by rows of b.
When the two column lists coincide the columns are unchanged; otherwise
pandas outer-aligns the columns (union, a's columns first), padding
missing cells with NaN. -/
def pdConcat (a b : DF) : DF :=
  if a.headers = b.headers then
    ⟨a.headers, a.rows ++ b.rows⟩
  else
    let tgt := a.headers ++ b.headers.filter (fun h => !(a.headers.contains h))
    ⟨tgt, a.rows.map (alignRow a.headers tgt) ++ b.rows.map (alignRow b.headers tgt)⟩

/-- pd.read_excel(output_file, sheet_name): the stored table of the first
sheet with the given name, or none when the sheet does not exist (in the
code the raised exception is caught and existing_df stays None). -/
def lookupSheet : Workbook → String → Option DF
  | [], _ => none
  | (n, d) :: rest, name => if n = name then some d else lookupSheet rest name

/-- df.to_excel under pd.ExcelWriter(mode="a", if_sheet_exists="replace"):
replace the named sheet's table in place, keeping every other sheet and
the sheet order; a sheet with a new name is added at the end. -/
def writeSheetReplace : Workbook → String → DF → Workbook
  | [], name, df => [(name, df)]
  | (n, d) :: rest, name, df =>
    if n = name then (n, df) :: rest
    else (n, d) :: writeSheetReplace rest name df

/-- append_to_excel(df, output_file, sheet_name) from main.py, as the
transformation of the persisted workbook (`none` models a missing file).
If the file is absent, a fresh workbook with the one sheet is written;
otherwise the target sheet is read (a read failure leaves existing_df as
None), the new rows are concatenated after any existing ones, and the
sheet is rewritten in place. -/
def append_to_excel (file : Option Workbook) (df : DF) (sheetName : String) : Workbook :=
  match file with
  | none => [(sheetName, df)]
  | some wb =>
    match lookupSheet wb sheetName with
    | some existing => writeSheetReplace wb sheetName (pdConcat existing df)
    | none => writeSheetReplace wb sheetName df

/-- The literal loading-placeholder marker scrape_table polls for. -/
def loadingMarker : String := "加载中"

/-- listStarts pat l: pat is an initial run of l. -/
def listStarts : List Char → List Char → Bool
  | [], _ => true
  | _ :: _, [] => false
  | a :: as, b :: bs => a == b && listStarts as bs

/-- listHasSub needle hay: needle occurs as a contiguous run inside hay,
modelling Python's `needle in hay` on the character lists of the strings. -/
def listHasSub (needle : List Char) : List Char → Bool
  | [] => needle.isEmpty
  | c :: rest => listStarts needle (c :: rest) || listHasSub needle rest

/-- Python's `needle in hay` substring test on strings. -/
def containsSub (needle hay : String) : Bool :=
  listHasSub needle.toList hay.toList

/-- One observable step of the polling loop in scrape_table: an
inner_html read (by poll index) or a time.sleep pause (in seconds). -/
inductive PollEvent where
  | poll (k : Nat)
  | sleep (secs : Nat)
deriving DecidableEq, Repr

/-- The while-loop of scrape_table, by remaining iterations
(fuel = max_retries - retries).  Each iteration reads the table's
inner_html; if the loading marker is absent the loop breaks with the
markup, otherwise retries is incremented and the loop sleeps 2 seconds
before polling again.  Returns the emitted events and the loaded markup
(none when the retry budget is exhausted, i.e. table_loaded stays False). -/
def pollLoopFuel (pollHtml : Nat → String) : Nat → Nat → List PollEvent × Option String
  | _, 0 => ([], none)
  | retries, fuel + 1 =>
    if containsSub loadingMarker (pollHtml retries) then
      let r := pollLoopFuel pollHtml (retries + 1) fuel
      (PollEvent.poll retries :: PollEvent.sleep 2 :: r.1, r.2)
    else
      ([PollEvent.poll retries], some (pollHtml retries))

/-- The polling phase of scrape_table: retries starts at 0,
max_retries = 5. -/
def pollLoop (pollHtml : Nat → String) : List PollEvent × Option String :=
  pollLoopFuel pollHtml 0 5

/-- The parsed table handed back by BeautifulSoup: the whitespace-trimmed
texts of the thead th cells, and for each tbody tr the trimmed texts of
its td cells. -/
structure ParsedTable where
  headerCells : List String
  bodyRows : List (List String)
deriving DecidableEq, Repr

/-- The snapshot-construction phase of scrape_table: keep exactly the body
rows whose cell count equals the header count (mismatched rows are logged
and skipped), build the DataFrame, then insert the two identifier columns
at positions 0 and 1 of every row. -/
def buildSnapshot (original matched : String) (headers : List String)
    (body : List (List String)) : DF :=
  let rows := body.filter (fun cols => cols.length = headers.length)
  ⟨"Original Company Name" :: "Matched Company Name" :: headers,
    rows.map (fun r => some original :: some matched :: r.map (fun c => some c))⟩

/-- scrape_table(page, original_name, matched_name, table_title) from
main.py.  The page is modelled by the successive inner_html snapshots
(pollHtml) and by the BeautifulSoup extraction (parseHtml, none when
find("thead")/find("tbody") fails and the resulting exception is caught,
mapping to the Malformed outcome).  Returns none for both the NotReady
and the Malformed outcome, matching the code's None returns; every
exception is caught inside, so scrape_table never raises. -/
def scrape_table (pollHtml : Nat → String) (parseHtml : String → Option ParsedTable)
    (original matched : String) : Option DF :=
  match (pollLoop pollHtml).2 with
  | none => none
  | some html =>
    match parseHtml html with
    | none => none
    | some pt => some (buildSnapshot original matched pt.headerCells pt.bodyRows)

/-- A Playwright Locator handle, as returned by page.locator(...).first:
a plain object wrapping a selector, built without touching the page. -/
structure Locator where
  selector : String

/-- Python truthiness of a Locator instance.  The sync-API Locator class
defines neither a bool conversion nor a length, so bool(locator) falls
back to the object default and is True for every instance, match or no
match on the page. -/
def locatorTruthy (_ : Locator) : Bool := true

/-- Observable steps of scrape_company_tables and of the batch loop in
run, in program order: the search for a company, the warning-and-skip
return of the no-results guard, the popup opening, the merge of the main
table into sheet Shareholders, a failed or successful click on a
historical-tab label, the log when no tab label worked, the merge of the
historical table into sheet Historical Shareholders, the log of the inner
historical except-handler, the log of the outer except-handler, the popup
close in the finally block (its exception, if any, swallowed by pass),
the navigation back to the landing page, and the critical log of the
batch-level except-handler in run. -/
inductive Event where
  | search (name : String)
  | logNoResults
  | openPopup
  | mergeMain
  | tabFail (label : String)
  | tabClick (label : String)
  | logNoTab
  | mergeHist (label : String)
  | logHistError
  | logError
  | popupClosed
  | popupCloseIgnored
  | gotoHome
  | logCritical
deriving DecidableEq, Repr

/-- Behaviour of the external collaborators during one
scrape_company_tables call.  searchRaises: some step of the search /
link-location / popup-opening sequence (lines 20-37) raises.  mainScrape:
the value scrape_table returns for the main shareholder table
(scrape_table catches every exception internally and returns None on
failure, so it never raises and is modelled by its result).  histRaises:
an unexpected exception inside the historical block, caught by the inner
except-handler.  tabClickOk: whether locating, clicking and settling on
the given tab label succeeds (a failure raises and is caught inside the
tab loop).  histScrape: the value scrape_table returns for the activated
historical tab.  closeRaises: popup_page.close() in the finally block
raises.  gotoRaises: page.goto back to the landing page raises. -/
structure Env where
  searchRaises : Bool
  mainScrape : Option DF
  histRaises : Bool
  tabClickOk : String → Bool
  histScrape : String → Option DF
  closeRaises : Bool
  gotoRaises : Bool

/-- The for-loop over candidate tab labels (lines 50-59): try each label
in order; the first successful click breaks out of the loop with that
label (tab_found = True), a click that raises logs a warning and falls
through to the next candidate.  Returns the click events and the
activated label, none when every candidate failed (tab_found stays
False). -/
def tryTabs (clickOk : String → Bool) : List String → List Event × Option String
  | [] => ([], none)
  | l :: ls =>
    if clickOk l then ([Event.tabClick l], some l)
    else
      let r := tryTabs clickOk ls
      (Event.tabFail l :: r.1, r.2)

/-- The candidate historical-tab labels, in priority order. -/
def tabLabels : List String := ["历史股东信息", "历史主要股东"]

/-- Execution outcome of a Python statement block: normal completion
(a plain return included), or an exception propagating out of it. -/
inductive ExnFlow where
  | ok
  | exn
deriving DecidableEq, Repr

/-- The unguarded interior of the historical-shareholder block
(lines 48-67): on an unexpected exception the block stops with exn
flow; otherwise the tab loop runs, a missing tab is logged and skipped,
and an activated tab's table is scraped (tab_text holds the activated
label) and, when not None, merged into sheet Historical Shareholders. -/
def histBlockRaw (env : Env) (wb : Option Workbook) :
    List Event × Option Workbook × ExnFlow :=
  if env.histRaises then ([], wb, ExnFlow.exn)
  else
    let r := tryTabs env.tabClickOk tabLabels
    match r.2 with
    | none => (r.1 ++ [Event.logNoTab], wb, ExnFlow.ok)
    | some label =>
      match env.histScrape label with
      | some df =>
        (r.1 ++ [Event.mergeHist label],
          some (append_to_excel wb df "Historical Shareholders"), ExnFlow.ok)
      | none => (r.1, wb, ExnFlow.ok)

/-- The try/except around the historical block (lines 47-69): an
exception from the interior is caught and logged, so the block always
completes normally. -/
def histBlock (env : Env) (wb : Option Workbook) : List Event × Option Workbook :=
  let r := histBlockRaw env wb
  match r.2.2 with
  | ExnFlow.exn => (r.1 ++ [Event.logHistError], r.2.1)
  | ExnFlow.ok => (r.1, r.2.1)

/-- The interior of scrape_company_tables' outer try (lines 18-69).  A
raise in the search / popup-opening sequence stops the block with exn
flow.  Otherwise the no-results guard tests the truthiness of the first
search-result Locator; were it falsy the code would log a warning and
return (normal flow).  Then the popup is open, the main table's snapshot
(when not None) is merged into sheet Shareholders, and the guarded
historical block runs. -/
def bodyBlockRaw (env : Env) (wb : Option Workbook) (company : String) :
    List Event × Option Workbook × ExnFlow :=
  if env.searchRaises then ([Event.search company], wb, ExnFlow.exn)
  else if !(locatorTruthy (Locator.mk "a.index_alink__zcia5")) then
    ([Event.search company, Event.logNoResults], wb, ExnFlow.ok)
  else
    let m :=
      match env.mainScrape with
      | some df => ([Event.mergeMain], some (append_to_excel wb df "Shareholders"))
      | none => (([] : List Event), wb)
    let h := histBlock env m.2
    (Event.search company :: Event.openPopup :: (m.1 ++ h.1), h.2, ExnFlow.ok)

/-- The outer try/except of scrape_company_tables (lines 18-72): any
exception from the body is caught and logged as an error, so the body
never propagates an exception into the finally block. -/
def bodyBlock (env : Env) (wb : Option Workbook) (company : String) :
    List Event × Option Workbook :=
  let r := bodyBlockRaw env wb company
  match r.2.2 with
  | ExnFlow.exn => (r.1 ++ [Event.logError], r.2.1)
  | ExnFlow.ok => (r.1, r.2.1)

/-- The popup close in the finally block (lines 75-78): a raise (the
popup already closed, or never assigned, making the name lookup itself
raise) is swallowed by the try/except pass, so the close step always
completes normally. -/
def closePopup (closeRaises : Bool) : List Event :=
  if closeRaises then [Event.popupCloseIgnored] else [Event.popupClosed]

/-- The page.goto back to the landing page (line 79): the one statement
of the finally block outside any except protection, so its exception, if
raised, propagates to the caller. -/
def gotoStep (gotoRaises : Bool) : List Event × ExnFlow :=
  ([Event.gotoHome], if gotoRaises then ExnFlow.exn else ExnFlow.ok)

/-- Result of one scrape_company_tables call: the event trace, the
persisted workbook afterwards, and whether an exception escaped to the
caller. -/
structure ScrapeResult where
  trace : List Event
  wb : Option Workbook
  flow : ExnFlow

/-- scrape_company_tables(page, company_name) from main.py: the guarded
body, then the finally block (the guarded popup close followed by the
unguarded navigation back to the landing location). -/
def scrape_company_tables (env : Env) (wb : Option Workbook) (company : String) :
    ScrapeResult :=
  let body := bodyBlock env wb company
  let g := gotoStep env.gotoRaises
  ⟨body.1 ++ closePopup env.closeRaises ++ g.1, body.2, g.2⟩

/-- Result of the batch loop: the combined trace, the final workbook, and
whether the batch was aborted by an exception escaping one company's
processing. -/
structure BatchResult where
  trace : List Event
  wb : Option Workbook
  aborted : Bool

/-- The company loop of run (lines 190-192) together with the except
handler of run (line 194): scrape_company_tables is invoked once per
identifier in input order, with no per-iteration guard; when a call
raises, control jumps to run's except-handler, which logs critically, and
every remaining identifier is left unprocessed. -/
def runBatch (envOf : String → Env) (wb : Option Workbook) : List String → BatchResult
  | [] => ⟨[], wb, false⟩
  | c :: cs =>
    let r := scrape_company_tables (envOf c) wb c
    match r.flow with
    | ExnFlow.exn => ⟨r.trace ++ [Event.logCritical], r.wb, true⟩
    | ExnFlow.ok =>
      let rest := runBatch envOf r.wb cs
      ⟨r.trace ++ rest.trace, rest.wb, rest.aborted⟩

/-- Recogniser for search events, used to count orchestrator
invocations in a trace. -/
def isSearch : Event → Bool
  | Event.search _ => true
  | _ => false

/-- Recogniser for the outer except-handler's error log. -/
def isLogError : Event → Bool
  | Event.logError => true
  | _ => false

/-- Sample scraped snapshot for a main shareholder table. -/
def dfMain : DF :=
  ⟨["Original Company Name", "Matched Company Name", "股东"],
    [[some "甲", some "甲集团", some "张三"]]⟩

/-- Sample scraped snapshot for a historical shareholder table. -/
def dfHist : DF :=
  ⟨["Original Company Name", "Matched Company Name", "历史股东"],
    [[some "甲", some "甲集团", some "李四"]]⟩

/-- Environment of a company whose processing succeeds, with no
historical tab present. -/
def envPlain : Env :=
  ⟨false, some dfMain, false, fun _ => false, fun _ => none, false, false⟩

/-- Like envPlain, except the landing-page navigation in the finally
block raises. -/
def envGotoFail : Env :=
  ⟨false, some dfMain, false, fun _ => false, fun _ => none, false, true⟩

/-- Like envPlain, except the search sequence raises (the shape a missing
search result actually takes: a later locator call fails). -/
def envSearchFail : Env :=
  ⟨true, none, false, fun _ => false, fun _ => none, false, false⟩

/-- Like envPlain, except an unexpected exception occurs inside the
historical block. -/
def envHistFail : Env :=
  ⟨false, some dfMain, true, fun _ => false, fun _ => none, false, false⟩

/-- Batch environment in which company 甲's cleanup navigation raises. -/
def envOfBad : String → Env := fun c => if c = "甲" then envGotoFail else envPlain

/-- Batch environment in which company 公司2 hits a per-company-fatal
search failure. -/
def envOfMid : String → Env := fun c => if c = "公司2" then envSearchFail else envPlain

/-- Environment in which only the second candidate tab label can be
activated and the historical table then scrapes successfully. -/
def envSecondTab : Env :=
  ⟨false, none, false, fun s => s == "历史主要股东", fun _ => some dfHist, false, false⟩

/-- Environment with a given tab-click behaviour in which any activated
tab would yield a mergeable table. -/
def envWithClicks (clickOk : String → Bool) : Env :=
  ⟨false, none, false, clickOk, fun _ => some dfHist, false, false⟩

/-- After rewriting a sheet, looking that sheet up yields exactly the
written table. -/
theorem lookup_write_same (wb : Workbook) (s : String) (df : DF) :
    lookupSheet (writeSheetReplace wb s df) s = some df := by
  induction wb with
  | nil => simp [writeSheetReplace, lookupSheet]
  | cons p rest ih =>
    obtain ⟨n, d⟩ := p
    by_cases h : n = s
    · simp [writeSheetReplace, lookupSheet, h]
    · simp [writeSheetReplace, lookupSheet, h, ih]

/-- Rewriting one sheet leaves the lookup of every other sheet unchanged. -/
theorem lookup_write_ne (wb : Workbook) (s t : String) (df : DF) (h : t ≠ s) :
    lookupSheet (writeSheetReplace wb s df) t = lookupSheet wb t := by
  induction wb with
  | nil => simp [writeSheetReplace, lookupSheet, Ne.symm h]
  | cons p rest ih =>
    obtain ⟨n, d⟩ := p
    by_cases hn : n = s
    · subst hn
      simp [writeSheetReplace, lookupSheet, Ne.symm h]
    · simp [writeSheetReplace, lookupSheet, hn, ih]

/-- A merge call on an existing workbook leaves the lookup of every sheet
other than its target unchanged. -/
theorem lookup_append_ne (wb : Workbook) (df : DF) (s t : String) (h : t ≠ s) :
    lookupSheet (append_to_excel (some wb) df s) t = lookupSheet wb t := by
  rcases hls : lookupSheet wb s with _ | e <;>
    simp [append_to_excel, hls, lookup_write_ne _ _ _ _ h]

/-- A merge call whose target sheet holds a table leaves that sheet
holding the pandas concatenation of the old table with the new one. -/
theorem lookup_append_some (wb : Workbook) (df e : DF) (s : String)
    (h : lookupSheet wb s = some e) :
    lookupSheet (append_to_excel (some wb) df s) s = some (pdConcat e df) := by
  simp [append_to_excel, h, lookup_write_same]

/-- The tab loop activates exactly the first candidate label whose click
succeeds. -/
theorem tryTabs_activated (clickOk : String → Bool) (ls : List String) :
    (tryTabs clickOk ls).2 = ls.find? clickOk := by
  induction ls with
  | nil => rfl
  | cons l ls ih =>
    cases h : clickOk l with
    | true => simp [tryTabs, h, List.find?]
    | false => simp [tryTabs, h, List.find?, ih]

/-- When every candidate label fails, the tab loop records one failure
per candidate, in order, and activates nothing. -/
theorem tryTabs_allFail (clickOk : String → Bool) (ls : List String)
    (h : ∀ l ∈ ls, clickOk l = false) :
    tryTabs clickOk ls = (ls.map Event.tabFail, none) := by
  induction ls with
  | nil => rfl
  | cons l ls ih =>
    have hl : clickOk l = false := h l (List.mem_cons_self l ls)
    have ih' := ih (fun x hx => h x (List.mem_cons_of_mem l hx))
    simp [tryTabs, hl, ih']

/-- The only events the tab loop emits are click failures and click
successes. -/
theorem tryTabs_events (clickOk : String → Bool) (ls : List String) (e : Event)
    (he : e ∈ (tryTabs clickOk ls).1) :
    (∃ l, e = Event.tabFail l) ∨ ∃ l, e = Event.tabClick l := by
  induction ls with
  | nil => simp [tryTabs] at he
  | cons l ls ih =>
    cases h : clickOk l with
    | true =>
      rw [tryTabs, h] at he
      simp only [if_true] at he
      rcases List.mem_singleton.mp he with rfl
      exact Or.inr ⟨l, rfl⟩
    | false =>
      rw [tryTabs, h] at he
      simp only [Bool.false_eq_true, if_false, List.mem_cons] at he
      rcases he with rfl | he
      · exact Or.inl ⟨l, rfl⟩
      · exact ih he

/-- A predicate that rejects both kinds of tab-loop event filters the tab
loop's trace to nothing. -/
theorem tryTabs_filter (p : Event → Bool) (clickOk : String → Bool) (ls : List String)
    (h1 : ∀ l, p (Event.tabFail l) = false) (h2 : ∀ l, p (Event.tabClick l) = false) :
    ((tryTabs clickOk ls).1).filter p = [] := by
  induction ls with
  | nil => rfl
  | cons l ls ih =>
    cases h : clickOk l with
    | true => simp [tryTabs, h, List.filter, h2]
    | false => simp [tryTabs, h, List.filter, h1, ih]

/-- The workbook state after the historical block is always defined, and
every sheet other than Historical Shareholders reads back unchanged. -/
theorem histBlock_lookup (env : Env) (w : Workbook) (t : String)
    (ht : t ≠ "Historical Shareholders") :
    ∃ w2, (histBlock env (some w)).2 = some w2 ∧ lookupSheet w2 t = lookupSheet w t := by
  cases hr : env.histRaises with
  | true => exact ⟨w, by simp [histBlock, histBlockRaw, hr], rfl⟩
  | false =>
    rcases ha : (tryTabs env.tabClickOk tabLabels).2 with _ | label
    · exact ⟨w, by simp [histBlock, histBlockRaw, hr, ha], rfl⟩
    · rcases hs : env.histScrape label with _ | df
      · exact ⟨w, by simp [histBlock, histBlockRaw, hr, ha, hs], rfl⟩
      · refine ⟨append_to_excel (some w) df "Historical Shareholders", ?_, ?_⟩
        · simp [histBlock, histBlockRaw, hr, ha, hs]
        · exact lookup_append_ne w df _ t ht

/-- A predicate that rejects every event the historical block can emit
filters its trace to nothing. -/
theorem histBlock_filter (p : Event → Bool) (env : Env) (wb : Option Workbook)
    (h1 : ∀ l, p (Event.tabFail l) = false) (h2 : ∀ l, p (Event.tabClick l) = false)
    (h3 : p Event.logNoTab = false) (h4 : ∀ l, p (Event.mergeHist l) = false)
    (h5 : p Event.logHistError = false) :
    ((histBlock env wb).1).filter p = [] := by
  cases hr : env.histRaises with
  | true => simp [histBlock, histBlockRaw, hr, List.filter, h5]
  | false =>
    rcases ha : (tryTabs env.tabClickOk tabLabels).2 with _ | label
    · simp [histBlock, histBlockRaw, hr, ha, List.filter_append, List.filter, h3,
        tryTabs_filter p env.tabClickOk tabLabels h1 h2]
    · rcases hs : env.histScrape label with _ | df
      · simp [histBlock, histBlockRaw, hr, ha, hs,
          tryTabs_filter p env.tabClickOk tabLabels h1 h2]
      · simp [histBlock, histBlockRaw, hr, ha, hs, List.filter_append, List.filter, h4,
          tryTabs_filter p env.tabClickOk tabLabels h1 h2]

/-- The only events the historical block can emit are tab clicks and
failures, the no-tab log, the historical merge, and the inner error log. -/
theorem histBlock_events (env : Env) (wb : Option Workbook) (e : Event)
    (he : e ∈ (histBlock env wb).1) :
    (∃ l, e = Event.tabFail l) ∨ (∃ l, e = Event.tabClick l) ∨ e = Event.logNoTab
      ∨ (∃ l, e = Event.mergeHist l) ∨ e = Event.logHistError := by
  cases hr : env.histRaises with
  | true =>
    rw [histBlock] at he
    simp [histBlockRaw, hr] at he
    subst he
    tauto
  | false =>
    rcases ha : (tryTabs env.tabClickOk tabLabels).2 with _ | label
    · rw [histBlock] at he
      simp [histBlockRaw, hr, ha] at he
      rcases he with he | rfl
      · rcases tryTabs_events env.tabClickOk tabLabels e he with h | h <;> tauto
      · tauto
    · rcases hs : env.histScrape label with _ | df
      · rw [histBlock] at he
        simp [histBlockRaw, hr, ha, hs] at he
        rcases tryTabs_events env.tabClickOk tabLabels e he with h | h <;> tauto
      · rw [histBlock] at he
        simp [histBlockRaw, hr, ha, hs] at he
        rcases he with he | rfl
        · rcases tryTabs_events env.tabClickOk tabLabels e he with h | h <;> tauto
        · tauto

/-- On a successful search with a non-None main snapshot, the body's
trace opens with the search, the popup, and the main merge, and its
workbook state is the historical block's, run on the workbook that
already contains the merged main table. -/
theorem bodyBlock_main (env : Env) (wb : Option Workbook) (c : String) (df : DF)
    (h1 : env.searchRaises = false) (h2 : env.mainScrape = some df) :
    bodyBlock env wb c =
      (Event.search c :: Event.openPopup :: Event.mergeMain ::
        (histBlock env (some (append_to_excel wb df "Shareholders"))).1,
       (histBlock env (some (append_to_excel wb df "Shareholders"))).2) := by
  simp [bodyBlock, bodyBlockRaw, h1, h2, locatorTruthy]

/-- Every body trace filters under isSearch to exactly one search event,
the company's own. -/
theorem bodyBlock_filter_search (env : Env) (wb : Option Workbook) (c : String) :
    ((bodyBlock env wb c).1).filter isSearch = [Event.search c] := by
  cases hs : env.searchRaises with
  | true => simp [bodyBlock, bodyBlockRaw, hs, List.filter, isSearch]
  | false =>
    have hh : ((histBlock env (match env.mainScrape with
        | some df => ([Event.mergeMain], some (append_to_excel wb df "Shareholders"))
        | none => (([] : List Event), wb)).2).1).filter isSearch = [] :=
      histBlock_filter isSearch env _ (fun _ => rfl) (fun _ => rfl) rfl (fun _ => rfl) rfl
    rcases hm : env.mainScrape with _ | df <;>
      simp [bodyBlock, bodyBlockRaw, hs, hm, locatorTruthy, List.filter_append,
        List.filter, isSearch] <;>
      simpa [hm] using hh

/-- The outer error log appears in the body trace exactly when the search
sequence raised. -/
theorem bodyBlock_filter_logError (env : Env) (wb : Option Workbook) (c : String) :
    ((bodyBlock env wb c).1).filter isLogError
      = if env.searchRaises then [Event.logError] else [] := by
  cases hs : env.searchRaises with
  | true => simp [bodyBlock, bodyBlockRaw, hs, List.filter, isLogError]
  | false =>
    have hh : ((histBlock env (match env.mainScrape with
        | some df => ([Event.mergeMain], some (append_to_excel wb df "Shareholders"))
        | none => (([] : List Event), wb)).2).1).filter isLogError = [] :=
      histBlock_filter isLogError env _ (fun _ => rfl) (fun _ => rfl) rfl (fun _ => rfl) rfl
    rcases hm : env.mainScrape with _ | df <;>
      simp [bodyBlock, bodyBlockRaw, hs, hm, locatorTruthy, List.filter_append,
        List.filter, isLogError] <;>
      simpa [hm] using hh

/-- The no-results warning never appears in a body trace: the guard tests
the truthiness of a Locator object, which is always truthy. -/
theorem bodyBlock_no_noResults (env : Env) (wb : Option Workbook) (c : String) :
    Event.logNoResults ∉ (bodyBlock env wb c).1 := by
  intro he
  cases hs : env.searchRaises with
  | true =>
    rw [bodyBlock] at he
    simp [bodyBlockRaw, hs] at he
  | false =>
    rcases hm : env.mainScrape with _ | df <;>
    · rw [bodyBlock] at he
      simp [bodyBlockRaw, hs, hm, locatorTruthy] at he
      rcases histBlock_events env _ _ he with ⟨l, h⟩ | ⟨l, h⟩ | h | ⟨l, h⟩ | h <;>
        simp at h

/-- The full trace of one company: the guarded body, then the guarded
popup close, then the landing-page navigation. -/
theorem scrape_trace (env : Env) (wb : Option Workbook) (c : String) :
    (scrape_company_tables env wb c).trace
      = (bodyBlock env wb c).1 ++ closePopup env.closeRaises ++ [Event.gotoHome] := rfl

/-- An exception escapes scrape_company_tables exactly when the final
landing-page navigation raises. -/
theorem scrape_flow (env : Env) (wb : Option Workbook) (c : String) :
    (scrape_company_tables env wb c).flow
      = if env.gotoRaises then ExnFlow.exn else ExnFlow.ok := rfl

/-- The workbook state scrape_company_tables leaves behind is the body's:
the finally block never touches the workbook. -/
theorem scrape_wb (env : Env) (wb : Option Workbook) (c : String) :
    (scrape_company_tables env wb c).wb = (bodyBlock env wb c).2 := rfl

/-- One company's trace filters under isSearch to exactly its own search
event. -/
theorem scrape_filter_search (env : Env) (wb : Option Workbook) (c : String) :
    ((scrape_company_tables env wb c).trace).filter isSearch = [Event.search c] := by
  rw [scrape_trace]
  cases hc : env.closeRaises <;>
    simp [List.filter_append, bodyBlock_filter_search, closePopup, List.filter, isSearch]

/-- One company's trace carries the outer error log exactly when its
search sequence raised. -/
theorem scrape_filter_logError (env : Env) (wb : Option Workbook) (c : String) :
    ((scrape_company_tables env wb c).trace).filter isLogError
      = if env.searchRaises then [Event.logError] else [] := by
  rw [scrape_trace]
  cases hc : env.closeRaises <;>
    simp [List.filter_append, bodyBlock_filter_logError, closePopup, List.filter, isLogError]

/-- When no company's landing-page navigation raises, the batch completes
without aborting and searches every identifier once, in input order. -/
theorem runBatch_ok (envOf : String → Env) (wb : Option Workbook) (cs : List String)
    (h : ∀ c ∈ cs, (envOf c).gotoRaises = false) :
    (runBatch envOf wb cs).aborted = false
  ∧ ((runBatch envOf wb cs).trace).filter isSearch = cs.map Event.search := by
  induction cs generalizing wb with
  | nil => simp [runBatch]
  | cons c cs ih =>
    have hc : (envOf c).gotoRaises = false := h c (List.mem_cons_self c cs)
    have hflow : (scrape_company_tables (envOf c) wb c).flow = ExnFlow.ok := by
      simp [scrape_flow, hc]
    have ih' := ih ((scrape_company_tables (envOf c) wb c).wb)
      (fun x hx => h x (List.mem_cons_of_mem c hx))
    simp [runBatch, hflow, List.filter_append, scrape_filter_search, ih'.1, ih'.2]

/-- Claim C1: for every merge call (append_to_excel) on an existing
workbook whose target sheet already holds rows, the persisted sheet
afterwards holds the pandas concatenation of the stored table with the
new one — with matching headers, exactly the previously stored rows in
their original order followed by the new snapshot's rows in their
extraction order; no stored row is lost or duplicated (the row counts add
even without matching headers); and merging [rowA] then [rowB] into the
same initially fresh sheet yields the sheet [rowA, rowB]. -/
theorem merge_preserves_history (wb : Workbook) (s : String) (e df : DF)
    (hd : List String) (a b : List Cell)
    (h1 : lookupSheet wb s = some e) (h2 : e.headers = df.headers) :
    lookupSheet (append_to_excel (some wb) df s) s
      = some (DF.mk e.headers (e.rows ++ df.rows))
  ∧ (pdConcat e df).rows.length = e.rows.length + df.rows.length
  ∧ lookupSheet (append_to_excel (some (append_to_excel none (DF.mk hd [a]) s))
      (DF.mk hd [b]) s) s = some (DF.mk hd [a, b]) := by
  refine ⟨?_, ?_, ?_⟩
  · rw [lookup_append_some wb df e s h1]
    simp [pdConcat, h2]
  · by_cases hh : e.headers = df.headers <;> simp [pdConcat, hh]
  · simp [append_to_excel, lookupSheet, writeSheetReplace, pdConcat]

/-- Witness for merge_preserves_history at a concrete one-sheet workbook. -/
theorem merge_preserves_history_witness :
    lookupSheet (append_to_excel (some [("Shareholders", DF.mk ["h"] [[some "x"]])])
        (DF.mk ["h"] [[some "y"]]) "Shareholders") "Shareholders"
      = some (DF.mk ["h"] [[some "x"], [some "y"]])
  ∧ (pdConcat (DF.mk ["h"] [[some "x"]]) (DF.mk ["h"] [[some "y"]])).rows.length = 1 + 1
  ∧ lookupSheet (append_to_excel (some (append_to_excel none
        (DF.mk ["h"] [[some "A"]]) "S")) (DF.mk ["h"] [[some "B"]]) "S") "S"
      = some (DF.mk ["h"] [[some "A"], [some "B"]]) :=
  merge_preserves_history [("Shareholders", DF.mk ["h"] [[some "x"]])] "Shareholders"
    (DF.mk ["h"] [[some "x"]]) (DF.mk ["h"] [[some "y"]]) ["h"] [some "A"] [some "B"]
    (by decide) (by decide)

/-- Claim C8: a merge call targeting one sheet of an existing workbook
leaves the stored table of every other sheet unchanged; in particular
merging into sheet Historical Shareholders never alters sheet
Shareholders of the same workbook. -/
theorem merge_sheet_isolation (wb : Workbook) (s t : String) (df : DF) (h : t ≠ s) :
    lookupSheet (append_to_excel (some wb) df s) t = lookupSheet wb t
  ∧ lookupSheet (append_to_excel (some wb) df "Historical Shareholders") "Shareholders"
      = lookupSheet wb "Shareholders" :=
  ⟨lookup_append_ne wb df s t h, lookup_append_ne wb df _ _ (by decide)⟩

/-- Witness for merge_sheet_isolation at a concrete one-sheet workbook. -/
theorem merge_sheet_isolation_witness :
    lookupSheet (append_to_excel (some [("Shareholders", DF.mk ["h"] [[some "x"]])])
        (DF.mk ["g"] [[some "z"]]) "Historical Shareholders") "Shareholders"
      = lookupSheet [("Shareholders", DF.mk ["h"] [[some "x"]])] "Shareholders"
  ∧ lookupSheet (append_to_excel (some [("Shareholders", DF.mk ["h"] [[some "x"]])])
        (DF.mk ["g"] [[some "z"]]) "Historical Shareholders") "Shareholders"
      = lookupSheet [("Shareholders", DF.mk ["h"] [[some "x"]])] "Shareholders" :=
  merge_sheet_isolation [("Shareholders", DF.mk ["h"] [[some "x"]])]
    "Historical Shareholders" "Shareholders" (DF.mk ["g"] [[some "z"]]) (by decide)

/-- Claim C3: a body row parsed by scrape_table is included in the built
snapshot iff its cell count equals the header count — every violating row
is dropped before the DataFrame is constructed and is never present —
and every row of a snapshot scrape_table returns has exactly len(headers)
scraped cells after the two prepended identifier cells, matching the
snapshot's own column count. -/
theorem snapshot_row_shape (orig matched : String) (headers : List String)
    (body : List (List String)) :
    (∀ c, (some orig :: some matched :: c.map (fun x => some x))
          ∈ (buildSnapshot orig matched headers body).rows
        ↔ c ∈ body ∧ c.length = headers.length)
  ∧ (∀ r ∈ (buildSnapshot orig matched headers body).rows, r.length = 2 + headers.length)
  ∧ (∀ (pollHtml : Nat → String) (parseHtml : String → Option ParsedTable) (df : DF),
      scrape_table pollHtml parseHtml orig matched = some df →
      ∀ r ∈ df.rows, r.length = df.headers.length) := by
  have key : ∀ (hs : List String) (bd : List (List String)),
      ∀ r ∈ (buildSnapshot orig matched hs bd).rows, r.length = 2 + hs.length := by
    intro hs bd r hr
    simp only [buildSnapshot, List.mem_map, List.mem_filter, decide_eq_true_eq] at hr
    obtain ⟨c2, ⟨_, hlen⟩, rfl⟩ := hr
    simp [hlen]
    omega
  refine ⟨?_, key headers body, ?_⟩
  · intro c
    constructor
    · intro hmem
      simp only [buildSnapshot, List.mem_map, List.mem_filter, decide_eq_true_eq] at hmem
      obtain ⟨c2, ⟨hc2b, hc2l⟩, heq⟩ := hmem
      have hmaps : c2.map (fun x => some x) = c.map (fun x => some x) := by
        injection heq with _ h2
        injection h2 with _ h3
      have hc : c2 = c := List.map_injective_iff.mpr (Option.some_injective String) hmaps
      subst hc
      exact ⟨hc2b, hc2l⟩
    · intro hc
      simp only [buildSnapshot, List.mem_map, List.mem_filter, decide_eq_true_eq]
      exact ⟨c, hc, rfl⟩
  · intro pollHtml parseHtml df hdf r hr
    rcases hpoll : (pollLoop pollHtml).2 with _ | html
    · rw [scrape_table, hpoll] at hdf
      exact absurd hdf (by simp)
    · rcases hparse : parseHtml html with _ | pt
      · rw [scrape_table, hpoll] at hdf
        simp only [hparse] at hdf
        exact absurd hdf (by simp)
      · rw [scrape_table, hpoll] at hdf
        simp only [hparse, Option.some.injEq] at hdf
        subst hdf
        have hlen := key pt.headerCells pt.bodyRows r hr
        simp [buildSnapshot]
        omega

/-- Witness for snapshot_row_shape: a matching row is kept with the two
identifier cells prepended, and a returned snapshot's rows match its
column count. -/
theorem snapshot_row_shape_witness :
    (some "原" :: some "配" :: (["张", "三"].map (fun x => some x)))
      ∈ (buildSnapshot "原" "配" ["n1", "n2"] [["张", "三"], ["只一格"]]).rows :=
  ((snapshot_row_shape "原" "配" ["n1", "n2"] [["张", "三"], ["只一格"]]).1
    ["张", "三"]).mpr ⟨by decide, by decide⟩

/-- Claim C4: on an input whose rendered table markup perpetually
contains the loading marker 加载中, the polling loop performs exactly 5
polls (max_retries), with a fixed 2-second pause between consecutive
polls (the code also sleeps once more after the final failed poll), then
gives up, and scrape_table returns None — the NotReady outcome — instead
of blocking indefinitely. -/
theorem load_detection_terminates (pollHtml : Nat → String)
    (h : ∀ k, containsSub loadingMarker (pollHtml k) = true) :
    pollLoop pollHtml =
      ([PollEvent.poll 0, PollEvent.sleep 2, PollEvent.poll 1, PollEvent.sleep 2,
        PollEvent.poll 2, PollEvent.sleep 2, PollEvent.poll 3, PollEvent.sleep 2,
        PollEvent.poll 4, PollEvent.sleep 2], none)
  ∧ ∀ (parseHtml : String → Option ParsedTable) (orig matched : String),
      scrape_table pollHtml parseHtml orig matched = none := by
  have hloop : pollLoop pollHtml =
      ([PollEvent.poll 0, PollEvent.sleep 2, PollEvent.poll 1, PollEvent.sleep 2,
        PollEvent.poll 2, PollEvent.sleep 2, PollEvent.poll 3, PollEvent.sleep 2,
        PollEvent.poll 4, PollEvent.sleep 2], none) := by
    simp [pollLoop, pollLoopFuel, h 0, h 1, h 2, h 3, h 4]
  refine ⟨hloop, ?_⟩
  intro parseHtml orig matched
  simp [scrape_table, hloop]

/-- Witness for load_detection_terminates on the constant loading page. -/
theorem load_detection_terminates_witness :
    pollLoop (fun _ => "加载中") =
      ([PollEvent.poll 0, PollEvent.sleep 2, PollEvent.poll 1, PollEvent.sleep 2,
        PollEvent.poll 2, PollEvent.sleep 2, PollEvent.poll 3, PollEvent.sleep 2,
        PollEvent.poll 4, PollEvent.sleep 2], none)
  ∧ ∀ (parseHtml : String → Option ParsedTable) (orig matched : String),
      scrape_table (fun _ => "加载中") parseHtml orig matched = none :=
  load_detection_terminates (fun _ => "加载中")
    (fun _ => show containsSub loadingMarker "加载中" = true by decide)

/-- Claim C5: whichever path scrape_company_tables exits from — success,
a per-company-fatal error, or any caught exception — cleanup executes:
the popup close is performed with any close error ignored (the trace ends
with a close step followed by the navigation either way), and only the
final landing-page navigation decides whether an exception escapes. -/
theorem cleanup_always_runs (env : Env) (wb : Option Workbook) (c : String) :
    (∃ t, (scrape_company_tables env wb c).trace = t ++ [Event.popupClosed, Event.gotoHome]
        ∨ (scrape_company_tables env wb c).trace
            = t ++ [Event.popupCloseIgnored, Event.gotoHome])
  ∧ (scrape_company_tables env wb c).flow
      = (if env.gotoRaises then ExnFlow.exn else ExnFlow.ok) := by
  refine ⟨⟨(bodyBlock env wb c).1, ?_⟩, rfl⟩
  cases hc : env.closeRaises with
  | false =>
    left
    rw [scrape_trace]
    simp [closePopup, hc]
  | true =>
    right
    rw [scrape_trace]
    simp [closePopup, hc]

/-- Claim C6: when the search succeeds and the main table yields a
snapshot, the main table is extracted and merged before the historical
attempt begins (the trace opens with the search, the popup and the main
merge), and whatever the historical path does — no tab label activating,
NotReady or Malformed extraction, or an exception inside the block — the
Shareholders sheet of the final workbook is exactly what the main merge
wrote. -/
theorem historical_best_effort (env : Env) (wb : Option Workbook) (c : String) (df : DF)
    (h1 : env.searchRaises = false) (h2 : env.mainScrape = some df) :
    (∃ t, (scrape_company_tables env wb c).trace
        = Event.search c :: Event.openPopup :: Event.mergeMain :: t)
  ∧ ∃ w, (scrape_company_tables env wb c).wb = some w
      ∧ lookupSheet w "Shareholders"
          = lookupSheet (append_to_excel wb df "Shareholders") "Shareholders" := by
  have hb := bodyBlock_main env wb c df h1 h2
  constructor
  · refine ⟨(histBlock env (some (append_to_excel wb df "Shareholders"))).1
      ++ closePopup env.closeRaises ++ [Event.gotoHome], ?_⟩
    rw [scrape_trace, hb]
    simp
  · obtain ⟨w2, hw2, hlook⟩ := histBlock_lookup env
      (append_to_excel wb df "Shareholders") "Shareholders" (by decide)
    refine ⟨w2, ?_, hlook⟩
    rw [scrape_wb, hb]
    exact hw2

/-- Witness for historical_best_effort: an exception inside the
historical block leaves the merged main table in place. -/
theorem historical_best_effort_witness :
    (∃ t, (scrape_company_tables envHistFail none "甲").trace
        = Event.search "甲" :: Event.openPopup :: Event.mergeMain :: t)
  ∧ ∃ w, (scrape_company_tables envHistFail none "甲").wb = some w
      ∧ lookupSheet w "Shareholders"
          = lookupSheet (append_to_excel none dfMain "Shareholders") "Shareholders" :=
  historical_best_effort envHistFail none "甲" dfMain rfl rfl

/-- Claim C7: tab activation tries the candidate labels in order and
activates exactly the first whose click succeeds; a label whose
activation throws is treated as not present and the next is tried; when
only the second of [历史股东信息, 历史主要股东] exists, the second label
is activated and is the one the historical extraction receives; and when
every candidate fails the historical extraction is skipped entirely — no
historical merge ever happens. -/
theorem tab_fallback_order (clickOk : String → Bool) (ls : List String) :
    (tryTabs clickOk ls).2 = ls.find? clickOk
  ∧ (scrape_company_tables envSecondTab none "丙").trace
      = [Event.search "丙", Event.openPopup, Event.tabFail "历史股东信息",
         Event.tabClick "历史主要股东", Event.mergeHist "历史主要股东",
         Event.popupClosed, Event.gotoHome]
  ∧ ((∀ lab, clickOk lab = false) →
      ∀ (wb : Option Workbook) (c label : String),
        Event.mergeHist label ∉ (scrape_company_tables (envWithClicks clickOk) wb c).trace) := by
  refine ⟨tryTabs_activated clickOk ls, by decide, ?_⟩
  intro hall wb c label he
  have htabs := tryTabs_allFail clickOk ["历史股东信息", "历史主要股东"] (fun l _ => hall l)
  rw [scrape_trace] at he
  simp [envWithClicks, closePopup, bodyBlock, bodyBlockRaw, locatorTruthy,
    histBlock, histBlockRaw, htabs, tabLabels] at he

/-- Witness for tab_fallback_order: with no activatable label, no
historical merge appears in the trace. -/
theorem tab_fallback_order_witness :
    Event.mergeHist "历史股东信息" ∉
      (scrape_company_tables (envWithClicks (fun _ => false)) none "丁").trace :=
  (tab_fallback_order (fun _ => false) []).2.2 (fun _ => rfl) none "丁" "历史股东信息"

/-- Claim C10: the early no-results branch of scrape_company_tables is
unreachable for every input: page.locator(...).first yields a Locator
object, which is always truthy, so the warning-and-skip return never
executes; a missing search result surfaces instead as an exception caught
by the outer handler. -/
theorem no_results_guard_unreachable :
    (∀ loc : Locator, locatorTruthy loc = true)
  ∧ ∀ (env : Env) (wb : Option Workbook) (c : String),
      Event.logNoResults ∉ (scrape_company_tables env wb c).trace := by
  refine ⟨fun _ => rfl, ?_⟩
  intro env wb c he
  rw [scrape_trace] at he
  rcases List.mem_append.mp he with he1 | he1
  · rcases List.mem_append.mp he1 with he2 | he2
    · exact bodyBlock_no_noResults env wb c he2
    · cases hc : env.closeRaises <;> simp [closePopup, hc] at he2
  · simp at he1

/-- Counterexample to claim C2 as stated: in a three-company batch where
the first company's cleanup navigation raises, the exception is recorded
(run's critical log) yet it does prevent the second and third identifiers
from being processed — their searches never happen and the batch aborts. -/
theorem batch_abort_counterexample :
    Event.logCritical ∈ (runBatch envOfBad none ["甲", "乙", "丙"]).trace
  ∧ Event.search "乙" ∉ (runBatch envOfBad none ["甲", "乙", "丙"]).trace
  ∧ Event.search "丙" ∉ (runBatch envOfBad none ["甲", "乙", "丙"]).trace
  ∧ (runBatch envOfBad none ["甲", "乙", "丙"]).aborted = true := by
  decide

/-- Claim C2 (amended): the batch loop invokes the orchestrator once per
identifier in input order, and an exception raised inside a company's
guarded processing (search, extraction, merge, popup close) is recorded
and does not prevent any later identifier — provided no company's
unguarded cleanup navigation raises; in the concrete three-company batch
whose second company hits a per-company-fatal search failure, all three
identifiers are searched in order and exactly one failure is logged. -/
theorem batch_isolation_amended (envOf : String → Env) (wb : Option Workbook)
    (cs : List String) (h : ∀ c ∈ cs, (envOf c).gotoRaises = false) :
    (runBatch envOf wb cs).aborted = false
  ∧ ((runBatch envOf wb cs).trace).filter isSearch = cs.map Event.search
  ∧ ((runBatch envOfMid none ["公司1", "公司2", "公司3"]).trace).filter isSearch
      = [Event.search "公司1", Event.search "公司2", Event.search "公司3"]
  ∧ (((runBatch envOfMid none ["公司1", "公司2", "公司3"]).trace).filter isLogError).length
      = 1 := by
  have hok := runBatch_ok envOf wb cs h
  exact ⟨hok.1, hok.2, by decide, by decide⟩

/-- Witness for batch_isolation_amended: a two-company batch where both
companies fail per-company-fatally still searches both and never aborts. -/
theorem batch_isolation_amended_witness :
    (runBatch (fun _ => envSearchFail) none ["X", "Y"]).aborted = false
  ∧ ((runBatch (fun _ => envSearchFail) none ["X", "Y"]).trace).filter isSearch
      = ["X", "Y"].map Event.search
  ∧ ((runBatch envOfMid none ["公司1", "公司2", "公司3"]).trace).filter isSearch
      = [Event.search "公司1", Event.search "公司2", Event.search "公司3"]
  ∧ (((runBatch envOfMid none ["公司1", "公司2", "公司3"]).trace).filter isLogError).length
      = 1 :=
  batch_isolation_amended (fun _ => envSearchFail) none ["X", "Y"] (fun _ _ => rfl)

/-- Claim C9: scrape_company_tables can propagate an exception to its
caller only from the final landing-page navigation of its cleanup: for
every environment the escape outcome equals the goto failure flag
(search, extraction, merge and popup-close failures are all caught
internally), and on a concrete input — a two-company batch whose first
company's cleanup navigation raises — the escape aborts processing of
every remaining company. -/
theorem goto_only_escape :
    (∀ (env : Env) (wb : Option Workbook) (c : String),
      ((scrape_company_tables env wb c).flow = ExnFlow.exn ↔ env.gotoRaises = true))
  ∧ (runBatch envOfBad none ["甲", "乙"]).aborted = true
  ∧ Event.search "乙" ∉ (runBatch envOfBad none ["甲", "乙"]).trace := by
  refine ⟨?_, by decide, by decide⟩
  intro env wb c
  rw [scrape_flow]
  cases env.gotoRaises <;> simp
